import Mathlib

set_option maxRecDepth 4000

/-!
Shallow embedding of the "Double Big Harvard" processor simulator
(pipeline.c, memory.c, processor.h).

Modelling conventions:
* `uint8_t` / `uint16_t` values are `Nat`, with an explicit `% 256` /
  `% 65536` at exactly the points where the C type system performs a
  narrowing conversion (assignment to a narrower variable, argument
  passing, arithmetic stored back into a fixed-width field).
* `int8_t` / `int16_t` values are `Int`; the C conversion to `int8_t`
  is `toI8` (reduce mod 256, reinterpret two's-complement).
* The fixed-size arrays (`Register[64]`, `instr_mem[1024]`,
  `data_mem[2048]`) are total functions from `Nat`; the simulator only
  ever indexes them with in-range values produced by the decoder /
  memory-bounds checks.
-/

/-- The C conversion `(int8_t) x`: reduce modulo 256 and reinterpret the
top bit as a sign bit, yielding a value in `[-128, 127]`. -/
def toI8 (x : Int) : Int :=
  let r := x % 256
  if r < 128 then r else r - 256

/-- Carry flag bit (processor.h `FLAG_C`). -/
def FLAG_C : Nat := 0x08
/-- Overflow flag bit (processor.h `FLAG_V`). -/
def FLAG_V : Nat := 0x04
/-- Negative flag bit (processor.h `FLAG_N`). -/
def FLAG_N : Nat := 0x02
/-- Sign flag bit (processor.h `FLAG_S`). -/
def FLAG_S : Nat := 0x01
/-- Zero flag bit (processor.h `FLAG_Z`). -/
def FLAG_Z : Nat := 0x10

/-- The fetch→decode pipeline latch (processor.h `IF_ID_Reg`). -/
structure IF_ID_Reg where
  instr : Nat
  pc : Nat
  valid : Bool
deriving DecidableEq

/-- The decode→execute pipeline latch (processor.h `ID_EX_Reg`).
`imm` is the C `int16_t` field, so it is an `Int`. -/
structure ID_EX_Reg where
  instr : Nat
  pc : Nat
  opcode : Nat
  rs : Nat
  rt : Nat
  imm : Int
  valueRS : Nat
  valueRT : Nat
  valid : Bool
deriving DecidableEq

/-- The whole simulator state (processor.h `Processor`). -/
structure Processor where
  Register : Nat → Nat
  SREG : Nat
  PC : Nat
  instr_mem : Nat → Nat
  data_mem : Nat → Nat
  IF_ID : IF_ID_Reg
  ID_EX : ID_EX_Reg
  EX_instr : Nat
  EX_pc : Nat
  EX_valid : Bool

/-- memory.c `mem_read_data`: out-of-range addresses read as 0. -/
def mem_read_data (p : Processor) (addr : Nat) : Nat :=
  if addr ≥ 2048 then 0 else p.data_mem addr

/-- memory.c `mem_write_data`: out-of-range addresses are a silent no-op. -/
def mem_write_data (p : Processor) (addr data : Nat) : Processor :=
  if addr ≥ 2048 then p
  else { p with data_mem := fun i => if i = addr then data else p.data_mem i }

/-- pipeline.c `update_flags`: recomputes `SREG` from scratch.
`Z` and `N` are set from the 8-bit result; only for ADD (op 0) and
SUB (op 1) are `C`, `V` and `S` considered.  The `S` condition is the
literal C expression `((SREG & FLAG_N) >> 1) ^ (SREG & FLAG_V)`. -/
def update_flags (p : Processor) (result val1 val2 op : Nat) : Processor :=
  let s : Nat := 0
  let s := if result = 0 then s ||| FLAG_Z else s
  let s := if result &&& 0x80 ≠ 0 then s ||| FLAG_N else s
  let s :=
    if op = 0 ∨ op = 1 then
      -- add or subtract
      let temp : Nat :=
        if op = 0 then (val1 + val2) % 65536
        else ((toI8 (val1 : Int) - toI8 (val2 : Int)) % 65536).toNat
      let s := if temp &&& 0x100 ≠ 0 then s ||| FLAG_C else s
      let ovf : Nat := ((val1 ^^^ result) &&& (val2 ^^^ result)) >>> 7
      let s := if ovf ≠ 0 then s ||| FLAG_V else s
      let s := if ((s &&& FLAG_N) >>> 1) ^^^ (s &&& FLAG_V) ≠ 0 then s ||| FLAG_S else s
      s
    else s
  { p with SREG := s }

/-- pipeline.c `fetch`. -/
def fetch (p : Processor) : Processor :=
  if p.PC < 1024 then
    let instruction := p.instr_mem p.PC
    if instruction = 0 then
      { p with PC := 1024 }
    else
      { p with IF_ID := { instr := instruction, pc := p.PC, valid := true },
               PC := (p.PC + 1) % 65536 }
  else p

/-- pipeline.c `decode`.  Note that the C immediate extraction is
`(int16_t)((int8_t)(instruction & 0x3F))`: the 6-bit field is masked
*before* the `int8_t` cast, so the resulting value is always in
`[0, 63]` (bit 5 is not propagated into a sign). -/
def decode (p : Processor) : Processor :=
  if p.IF_ID.valid = false then p
  else
    let instruction := p.IF_ID.instr
    let opcode := (instruction >>> 12) &&& 0x0F
    let rs := (instruction >>> 6) &&& 0x3F
    let immClass :=
      opcode = 3 ∨ opcode = 4 ∨ opcode = 5 ∨ opcode = 10 ∨ opcode = 11 ∨
      opcode = 8 ∨ opcode = 9
    let imm : Int := if immClass then toI8 ((instruction &&& 0x3F : Nat) : Int) else 0
    let rt : Nat := if immClass then 0 else instruction &&& 0x3F
    { p with
      ID_EX := { instr := instruction, pc := p.IF_ID.pc, opcode := opcode,
                 rs := rs, rt := rt, imm := imm,
                 valueRS := p.Register rs, valueRT := p.Register rt,
                 valid := true },
      IF_ID := { p.IF_ID with valid := false } }

/-- pipeline.c `execute`.  The C `switch` is rendered as a decision
tree; the `flag` variable of the C code (set by STR, untaken BEQZ and
the `default` case) is resolved into control flow: those paths skip
both the write-back and the `update_flags` call. -/
def execute (p : Processor) : Processor :=
  if p.ID_EX.valid = false then p
  else
    let opcode := p.ID_EX.opcode
    let rs := p.ID_EX.rs
    let rt := p.ID_EX.rt
    let immediate : Int := toI8 p.ID_EX.imm
    let val1 : Nat := p.ID_EX.valueRS % 256
    let val2 : Nat :=
      if opcode ≤ 2 ∨ opcode = 6 ∨ opcode = 7 then p.ID_EX.valueRT % 256
      else (immediate % 256).toNat
    if opcode = 4 then
      -- BEQZ R1 IMM: tests the live register file, not the latch snapshot
      if p.Register rs = 0 then
        { p with PC := (((p.ID_EX.pc : Int) + 1 + immediate) % 65536).toNat,
                 IF_ID := { p.IF_ID with valid := false },
                 ID_EX := { p.ID_EX with valid := false } }
      else
        { p with ID_EX := { p.ID_EX with valid := false } }
    else if opcode = 7 then
      -- BR R1 R2: live register file values form the 16-bit target
      { p with PC := ((p.Register rs % 256) <<< 8 ||| (p.Register rt % 256)) % 65536,
               IF_ID := { p.IF_ID with valid := false },
               ID_EX := { p.ID_EX with valid := false } }
    else if opcode = 11 then
      -- STR R1 IMM: stores the live register file value
      let q := mem_write_data p ((immediate % 65536).toNat) (p.Register rs % 256)
      { q with ID_EX := { q.ID_EX with valid := false } }
    else if opcode = 0 ∨ opcode = 1 ∨ opcode = 2 ∨ opcode = 3 ∨ opcode = 5 ∨
            opcode = 6 ∨ opcode = 8 ∨ opcode = 9 ∨ opcode = 10 then
      let result : Nat :=
        if opcode = 0 then (val1 + val2) % 256              -- ADD
        else if opcode = 1 then (((val1 : Int) - (val2 : Int)) % 256).toNat  -- SUB
        else if opcode = 2 then (val1 * val2) % 256         -- MUL
        else if opcode = 3 then (immediate % 256).toNat     -- MOVI
        else if opcode = 5 then (val1 &&& val2) % 256       -- ANDI
        else if opcode = 6 then (val1 ^^^ val2) % 256       -- EOR
        else if opcode = 8 then (val1 <<< val2) % 256       -- SAL
        else if opcode = 9 then ((Int.fdiv (toI8 (val1 : Int)) (2 ^ val2)) % 256).toNat  -- SAR
        else mem_read_data p ((immediate % 65536).toNat)    -- LDR
      let q := if rs ≠ 0 then
                 { p with Register := fun i => if i = rs then result else p.Register i }
               else p
      let q := update_flags q result val1 val2 opcode
      { q with ID_EX := { q.ID_EX with valid := false } }
    else
      -- default: undefined opcodes 12..15 are a silent no-op
      { p with ID_EX := { p.ID_EX with valid := false } }

/-- pipeline.c `process_cycle`: shadow-record snapshot, then execute,
then decode, then (if the program counter is in range) fetch. -/
def process_cycle (p : Processor) : Processor :=
  let p1 := { p with EX_instr := p.ID_EX.instr, EX_pc := p.ID_EX.pc,
                     EX_valid := p.ID_EX.valid }
  let p2 := execute p1
  let p3 := decode p2
  if p3.PC < 1024 then fetch p3 else p3

/-- An all-zero processor state (registers, memories zeroed, latches
invalid), used as a base for the concrete test states below. -/
def zeroProc : Processor :=
  { Register := fun _ => 0, SREG := 0, PC := 0,
    instr_mem := fun _ => 0, data_mem := fun _ => 0,
    IF_ID := { instr := 0, pc := 0, valid := false },
    ID_EX := { instr := 0, pc := 0, opcode := 0, rs := 0, rt := 0, imm := 0,
               valueRS := 0, valueRT := 0, valid := false },
    EX_instr := 0, EX_pc := 0, EX_valid := false }

/-- A decode-execute latch holding an arithmetic two-register
instruction (opcode `op`) with operand snapshots `a`, `b`. -/
def arithLatch (op a b : Nat) : ID_EX_Reg :=
  { instr := 0, pc := 0, opcode := op, rs := 1, rt := 2, imm := 0,
    valueRS := a, valueRT := b, valid := true }

/-- A state about to execute a two-register arithmetic instruction on
operand values `a` and `b` (held in R1 and R2). -/
def arithState (op a b : Nat) : Processor :=
  { zeroProc with
    Register := fun i => if i = 1 then a else if i = 2 then b else 0,
    ID_EX := arithLatch op a b }

/-- State with an undefined opcode (12) in the decode-execute latch and
a nonzero status register. -/
def undefOpState : Processor :=
  { zeroProc with
    SREG := 2,
    ID_EX := { instr := 0, pc := 0, opcode := 12, rs := 1, rt := 0, imm := 0,
               valueRS := 0, valueRT := 0, valid := true } }

/-- State with an untaken BEQZ (source register R1 holds 3 ≠ 0) in the
decode-execute latch and a nonzero status register. -/
def beqzUntakenState : Processor :=
  { zeroProc with
    SREG := 2,
    Register := fun i => if i = 1 then 3 else 0,
    ID_EX := { instr := 0, pc := 0, opcode := 4, rs := 1, rt := 0, imm := 0,
               valueRS := 3, valueRT := 0, valid := true } }

/-- State whose instruction store holds the single instruction
`BEQZ R1 -2`, encoded by the loader as `0x407E` (opcode 4, rs 1,
immediate field `0b111110`), at address 0. -/
def beqzNeg2Prog : Processor :=
  { zeroProc with instr_mem := fun i => if i = 0 then 0x407E else 0 }

/-- State about to execute `BR R1 R2` with R1 = 0x01, R2 = 0x02. -/
def brState : Processor :=
  { zeroProc with
    Register := fun i => if i = 1 then 1 else if i = 2 then 2 else 0,
    ID_EX := { instr := 0, pc := 0, opcode := 7, rs := 1, rt := 2, imm := 0,
               valueRS := 1, valueRT := 2, valid := true } }

/-- State about to execute `BR R1 R2` whose latch operand snapshots
(9, 9) disagree with the live register file (R1 = 1, R2 = 2), as after
an intervening write-back. -/
def brStaleState : Processor :=
  { zeroProc with
    Register := fun i => if i = 1 then 1 else if i = 2 then 2 else 0,
    ID_EX := { instr := 0, pc := 0, opcode := 7, rs := 1, rt := 2, imm := 0,
               valueRS := 9, valueRT := 9, valid := true } }

/-- State about to execute `BEQZ R1 -2` (latch form: opcode 4, imm −2)
fetched at program counter 5, with R1 = 0. -/
def beqzTakenState : Processor :=
  { zeroProc with
    ID_EX := { instr := 0, pc := 5, opcode := 4, rs := 1, rt := 0, imm := -2,
               valueRS := 0, valueRT := 0, valid := true } }

/-- State about to execute `STR R1 10` with R1 = 7. -/
def strState : Processor :=
  { zeroProc with
    Register := fun i => if i = 1 then 7 else 0,
    ID_EX := { instr := 0, pc := 0, opcode := 11, rs := 1, rt := 0, imm := 10,
               valueRS := 7, valueRT := 0, valid := true } }

/-- Fetch test state: program counter already at the bound. -/
def fetchIdleState : Processor := { zeroProc with PC := 2000 }

/-- Fetch test state: a nonzero instruction word at address 0. -/
def fetchHitState : Processor :=
  { zeroProc with instr_mem := fun i => if i = 0 then 0x107E else 0 }

/-! ### Helper lemmas -/

theorem land_256_ne_zero (n : Nat) : n &&& 256 ≠ 0 ↔ n.testBit 8 := by
  have h := Nat.and_two_pow n 8
  norm_num at h
  rw [h]
  cases hn : n.testBit 8 <;> simp

theorem shiftLeft8_lor (a b : Nat) (hb : b < 256) : a <<< 8 ||| b = 256 * a + b := by
  have hb' : b < 2 ^ 8 := by simpa using hb
  have h := Nat.mul_add_lt_is_or hb' a
  rw [Nat.shiftLeft_eq, Nat.mul_comm, ← h]

/-! ### C1: sign flag -/

theorem s_if_char : ∀ s < 32, s &&& FLAG_S = 0 →
    (((if ((s &&& FLAG_N) >>> 1) ^^^ (s &&& FLAG_V) ≠ 0 then s ||| FLAG_S else s) &&& FLAG_S ≠ 0) ↔
      (((if ((s &&& FLAG_N) >>> 1) ^^^ (s &&& FLAG_V) ≠ 0 then s ||| FLAG_S else s) &&& FLAG_N ≠ 0) ∨
       ((if ((s &&& FLAG_N) >>> 1) ^^^ (s &&& FLAG_V) ≠ 0 then s ||| FLAG_S else s) &&& FLAG_V ≠ 0))) := by
  decide

/-- C1 (amended): after `update_flags` recomputes the status register for an
ADD or SUB (opcode 0 or 1), the Sign flag is set iff the Negative flag OR the
Overflow flag is set (the C condition compares the N and V bits at different
bit positions, so the intended XOR degenerates to OR); for every other opcode
the Sign flag is left clear, regardless of the Negative flag. -/
theorem sign_flag_semantics (p : Processor) (result val1 val2 op : Nat) :
    ((op = 0 ∨ op = 1) →
      (((update_flags p result val1 val2 op).SREG &&& FLAG_S ≠ 0) ↔
        (((update_flags p result val1 val2 op).SREG &&& FLAG_N ≠ 0) ∨
         ((update_flags p result val1 val2 op).SREG &&& FLAG_V ≠ 0)))) ∧
    (op ≠ 0 → op ≠ 1 → (update_flags p result val1 val2 op).SREG &&& FLAG_S = 0) := by
  constructor
  · intro hop
    simp only [update_flags, if_pos hop]
    exact s_if_char _ (by split_ifs <;> decide) (by split_ifs <;> decide)
  · intro h0 h1
    have hop : ¬(op = 0 ∨ op = 1) := by tauto
    simp only [update_flags, if_neg hop]
    split_ifs <;> decide

/-- C1 counterexample: for ADD on operands 64 and 64 (result 128) both the
Negative and the Overflow flag are set, yet the Sign flag is also set — it is
not `N XOR V`; and for MUL (opcode 2) with a negative result, the Negative
flag is set but the Sign flag is clear — it does not reduce to `N`. -/
theorem sign_flag_claim_false :
    (¬(((update_flags zeroProc 128 64 64 0).SREG &&& FLAG_S ≠ 0) ↔
       ¬(((update_flags zeroProc 128 64 64 0).SREG &&& FLAG_N ≠ 0) ↔
         ((update_flags zeroProc 128 64 64 0).SREG &&& FLAG_V ≠ 0)))) ∧
    (¬(((update_flags zeroProc 128 16 8 2).SREG &&& FLAG_S ≠ 0) ↔
       ((update_flags zeroProc 128 16 8 2).SREG &&& FLAG_N ≠ 0))) := by
  decide

/-- C1 witness: instantiating the amended sign-flag theorem at ADD 64+64
(where N = V = 1, so S = 1) and at MUL 16·8 (result 128, S = 0). -/
theorem sign_flag_semantics_witness :
    (((update_flags zeroProc 128 64 64 0).SREG &&& FLAG_S ≠ 0) ↔
      (((update_flags zeroProc 128 64 64 0).SREG &&& FLAG_N ≠ 0) ∨
       ((update_flags zeroProc 128 64 64 0).SREG &&& FLAG_V ≠ 0))) ∧
    (update_flags zeroProc 128 16 8 2).SREG &&& FLAG_S = 0 :=
  ⟨(sign_flag_semantics zeroProc 128 64 64 0).1 (Or.inl rfl),
   (sign_flag_semantics zeroProc 128 16 8 2).2 (by decide) (by decide)⟩

/-! ### C2: untaken BEQZ and undefined opcodes -/

/-- C2 (amended): an untaken BEQZ, and any instruction whose opcode is 12–15,
completes as a complete no-op apart from consuming the instruction: no
register is written, the status register is left untouched (flags are NOT
recomputed), program counter and memories are unchanged, and the
decode-execute latch is invalidated. -/
theorem untaken_beqz_and_undefined_are_silent (p : Processor)
    (hv : p.ID_EX.valid = true)
    (h : (p.ID_EX.opcode = 4 ∧ p.Register p.ID_EX.rs ≠ 0) ∨
         (12 ≤ p.ID_EX.opcode ∧ p.ID_EX.opcode ≤ 15)) :
    (execute p).Register = p.Register ∧
    (execute p).SREG = p.SREG ∧
    (execute p).PC = p.PC ∧
    (execute p).data_mem = p.data_mem ∧
    (execute p).IF_ID = p.IF_ID ∧
    (execute p).ID_EX.valid = false := by
  rcases h with ⟨hop, hreg⟩ | ⟨h12, h15⟩
  · simp [execute, hv, hop, hreg]
  · have h4 : ¬p.ID_EX.opcode = 4 := by omega
    have h7 : ¬p.ID_EX.opcode = 7 := by omega
    have h11 : ¬p.ID_EX.opcode = 11 := by omega
    have hbig : ¬(p.ID_EX.opcode = 0 ∨ p.ID_EX.opcode = 1 ∨ p.ID_EX.opcode = 2 ∨
        p.ID_EX.opcode = 3 ∨ p.ID_EX.opcode = 5 ∨ p.ID_EX.opcode = 6 ∨
        p.ID_EX.opcode = 8 ∨ p.ID_EX.opcode = 9 ∨ p.ID_EX.opcode = 10) := by omega
    simp [execute, hv, h4, h7, h11, hbig]

/-- C2 counterexample: with an undefined opcode (12), and with an untaken
BEQZ, execute leaves the old status register value 2 in place; the Zero flag
is not set even though the (vacuous) result is 0, so the status register is
not recomputed as the claim states. -/
theorem untaken_noop_claim_false :
    (undefOpState.ID_EX.valid = true ∧ undefOpState.ID_EX.opcode = 12 ∧
     (execute undefOpState).SREG = 2 ∧ (execute undefOpState).SREG &&& FLAG_Z = 0) ∧
    (beqzUntakenState.ID_EX.valid = true ∧ beqzUntakenState.ID_EX.opcode = 4 ∧
     beqzUntakenState.Register beqzUntakenState.ID_EX.rs ≠ 0 ∧
     (execute beqzUntakenState).SREG = 2 ∧
     (execute beqzUntakenState).SREG &&& FLAG_Z = 0) := by
  decide

/-- C2 witness: the amended no-op theorem applied to the concrete state
holding an undefined opcode 12. -/
theorem untaken_silent_witness :
    (execute undefOpState).Register = undefOpState.Register ∧
    (execute undefOpState).SREG = undefOpState.SREG ∧
    (execute undefOpState).PC = undefOpState.PC ∧
    (execute undefOpState).data_mem = undefOpState.data_mem ∧
    (execute undefOpState).IF_ID = undefOpState.IF_ID ∧
    (execute undefOpState).ID_EX.valid = false :=
  untaken_beqz_and_undefined_are_silent undefOpState rfl (Or.inr ⟨by decide, by decide⟩)

/-! ### C3: cycle orchestration -/

@[simp] theorem update_flags_Register (p : Processor) (r a b op : Nat) :
    (update_flags p r a b op).Register = p.Register := rfl

@[simp] theorem update_flags_PC (p : Processor) (r a b op : Nat) :
    (update_flags p r a b op).PC = p.PC := rfl

@[simp] theorem update_flags_IF_ID (p : Processor) (r a b op : Nat) :
    (update_flags p r a b op).IF_ID = p.IF_ID := rfl

@[simp] theorem update_flags_ID_EX (p : Processor) (r a b op : Nat) :
    (update_flags p r a b op).ID_EX = p.ID_EX := rfl

@[simp] theorem update_flags_data_mem (p : Processor) (r a b op : Nat) :
    (update_flags p r a b op).data_mem = p.data_mem := rfl

@[simp] theorem update_flags_instr_mem (p : Processor) (r a b op : Nat) :
    (update_flags p r a b op).instr_mem = p.instr_mem := rfl

@[simp] theorem update_flags_EX_instr (p : Processor) (r a b op : Nat) :
    (update_flags p r a b op).EX_instr = p.EX_instr := rfl

@[simp] theorem update_flags_EX_pc (p : Processor) (r a b op : Nat) :
    (update_flags p r a b op).EX_pc = p.EX_pc := rfl

@[simp] theorem update_flags_EX_valid (p : Processor) (r a b op : Nat) :
    (update_flags p r a b op).EX_valid = p.EX_valid := rfl

@[simp] theorem mem_write_data_Register (p : Processor) (a d : Nat) :
    (mem_write_data p a d).Register = p.Register := by
  unfold mem_write_data; split <;> rfl

@[simp] theorem mem_write_data_SREG (p : Processor) (a d : Nat) :
    (mem_write_data p a d).SREG = p.SREG := by
  unfold mem_write_data; split <;> rfl

@[simp] theorem mem_write_data_PC (p : Processor) (a d : Nat) :
    (mem_write_data p a d).PC = p.PC := by
  unfold mem_write_data; split <;> rfl

@[simp] theorem mem_write_data_IF_ID (p : Processor) (a d : Nat) :
    (mem_write_data p a d).IF_ID = p.IF_ID := by
  unfold mem_write_data; split <;> rfl

@[simp] theorem mem_write_data_ID_EX (p : Processor) (a d : Nat) :
    (mem_write_data p a d).ID_EX = p.ID_EX := by
  unfold mem_write_data; split <;> rfl

@[simp] theorem mem_write_data_instr_mem (p : Processor) (a d : Nat) :
    (mem_write_data p a d).instr_mem = p.instr_mem := by
  unfold mem_write_data; split <;> rfl

@[simp] theorem mem_write_data_EX_instr (p : Processor) (a d : Nat) :
    (mem_write_data p a d).EX_instr = p.EX_instr := by
  unfold mem_write_data; split <;> rfl

@[simp] theorem mem_write_data_EX_pc (p : Processor) (a d : Nat) :
    (mem_write_data p a d).EX_pc = p.EX_pc := by
  unfold mem_write_data; split <;> rfl

@[simp] theorem mem_write_data_EX_valid (p : Processor) (a d : Nat) :
    (mem_write_data p a d).EX_valid = p.EX_valid := by
  unfold mem_write_data; split <;> rfl

theorem execute_EX_unchanged (p : Processor) :
    (execute p).EX_instr = p.EX_instr ∧ (execute p).EX_pc = p.EX_pc ∧
    (execute p).EX_valid = p.EX_valid := by
  by_cases hv : p.ID_EX.valid = false
  · simp [execute, hv]
  · by_cases h4 : p.ID_EX.opcode = 4
    · by_cases hr : p.Register p.ID_EX.rs = 0
      · simp [execute, hv, h4, hr]
      · simp [execute, hv, h4, hr]
    · by_cases h7 : p.ID_EX.opcode = 7
      · simp [execute, hv, h4, h7]
      · by_cases h11 : p.ID_EX.opcode = 11
        · simp [execute, hv, h4, h7, h11]
        · by_cases harith : p.ID_EX.opcode = 0 ∨ p.ID_EX.opcode = 1 ∨
              p.ID_EX.opcode = 2 ∨ p.ID_EX.opcode = 3 ∨ p.ID_EX.opcode = 5 ∨
              p.ID_EX.opcode = 6 ∨ p.ID_EX.opcode = 8 ∨ p.ID_EX.opcode = 9 ∨
              p.ID_EX.opcode = 10
          · by_cases hrs : p.ID_EX.rs ≠ 0
            · simp [execute, hv, h4, h7, h11, harith, hrs]
            · simp [execute, hv, h4, h7, h11, harith, hrs]
          · simp [execute, hv, h4, h7, h11, harith]

theorem decode_EX_unchanged (p : Processor) :
    (decode p).EX_instr = p.EX_instr ∧ (decode p).EX_pc = p.EX_pc ∧
    (decode p).EX_valid = p.EX_valid := by
  simp only [decode]
  split_ifs <;> exact ⟨rfl, rfl, rfl⟩

theorem fetch_EX_unchanged (p : Processor) :
    (fetch p).EX_instr = p.EX_instr ∧ (fetch p).EX_pc = p.EX_pc ∧
    (fetch p).EX_valid = p.EX_valid := by
  simp only [fetch]
  split_ifs <;> exact ⟨rfl, rfl, rfl⟩

theorem fetch_ID_EX_unchanged (p : Processor) : (fetch p).ID_EX = p.ID_EX := by
  simp only [fetch]
  split_ifs <;> rfl

theorem decode_skip (p : Processor) (h : p.IF_ID.valid = false) : decode p = p := by
  simp [decode, h]

theorem execute_flush (p : Processor) (hv : p.ID_EX.valid = true)
    (hbr : p.ID_EX.opcode = 7 ∨ (p.ID_EX.opcode = 4 ∧ p.Register p.ID_EX.rs = 0)) :
    (execute p).IF_ID.valid = false ∧ (execute p).ID_EX.valid = false := by
  rcases hbr with hop | ⟨hop, hreg⟩
  · simp [execute, hv, hop]
  · simp [execute, hv, hop, hreg]

/-- C3: one call of `process_cycle` (i) copies the decode-execute latch's
instruction, program counter and validity into the execute shadow record,
(ii) is exactly the sequence shadow-snapshot, execute, decode, then fetch
guarded by the program counter being below 1024, and (iii) when execute takes
a branch (BR, or BEQZ with live source-register value 0) the flush it
performs invalidates the fetch-decode latch before decode runs, so nothing
is promoted into the decode-execute latch this cycle. -/
theorem process_cycle_order (p : Processor) :
    (process_cycle p).EX_instr = p.ID_EX.instr ∧
    (process_cycle p).EX_pc = p.ID_EX.pc ∧
    (process_cycle p).EX_valid = p.ID_EX.valid ∧
    process_cycle p =
      (let p1 : Processor :=
        { p with EX_instr := p.ID_EX.instr, EX_pc := p.ID_EX.pc,
                 EX_valid := p.ID_EX.valid };
       let p2 := execute p1;
       let p3 := decode p2;
       if p3.PC < 1024 then fetch p3 else p3) ∧
    (p.ID_EX.valid = true →
      (p.ID_EX.opcode = 7 ∨ (p.ID_EX.opcode = 4 ∧ p.Register p.ID_EX.rs = 0)) →
      (execute { p with EX_instr := p.ID_EX.instr, EX_pc := p.ID_EX.pc,
                        EX_valid := p.ID_EX.valid }).IF_ID.valid = false ∧
      (process_cycle p).ID_EX.valid = false) := by
  refine ⟨?_, ?_, ?_, rfl, ?_⟩
  · unfold process_cycle
    dsimp only
    split
    · rw [(fetch_EX_unchanged _).1, (decode_EX_unchanged _).1, (execute_EX_unchanged _).1]
    · rw [(decode_EX_unchanged _).1, (execute_EX_unchanged _).1]
  · unfold process_cycle
    dsimp only
    split
    · rw [(fetch_EX_unchanged _).2.1, (decode_EX_unchanged _).2.1, (execute_EX_unchanged _).2.1]
    · rw [(decode_EX_unchanged _).2.1, (execute_EX_unchanged _).2.1]
  · unfold process_cycle
    dsimp only
    split
    · rw [(fetch_EX_unchanged _).2.2, (decode_EX_unchanged _).2.2, (execute_EX_unchanged _).2.2]
    · rw [(decode_EX_unchanged _).2.2, (execute_EX_unchanged _).2.2]
  · intro hv hbr
    have hfl := execute_flush
      { p with EX_instr := p.ID_EX.instr, EX_pc := p.ID_EX.pc, EX_valid := p.ID_EX.valid }
      hv hbr
    refine ⟨hfl.1, ?_⟩
    unfold process_cycle
    dsimp only
    rw [decode_skip _ hfl.1]
    split
    · rw [fetch_ID_EX_unchanged]
      exact hfl.2
    · exact hfl.2

/-- C3 witness: a cycle whose execute stage processes a BR instruction
(the concrete state `brState`) flushes the fetch-decode latch and leaves
the decode-execute latch invalid at the end of the cycle. -/
theorem process_cycle_order_witness :
    (execute { brState with EX_instr := brState.ID_EX.instr, EX_pc := brState.ID_EX.pc,
                            EX_valid := brState.ID_EX.valid }).IF_ID.valid = false ∧
    (process_cycle brState).ID_EX.valid = false :=
  (process_cycle_order brState).2.2.2.2 rfl (Or.inl rfl)

/-! ### C4: BEQZ with negative immediate -/

/-- C4 (code bug): the loader encodes `BEQZ R1 -2` as `0x407E` (immediate
field `0b111110`).  Decode extracts the immediate as
`(int16_t)((int8_t)(instr & 0x3F))`, which masks the 6-bit field before the
cast, so the immediate comes out as +62 rather than the documented
sign-extended −2.  Consequently a taken BEQZ fetched at program counter 0
sets the program counter to 0 + 1 + 62 = 63, not to the claimed
P − 1 (= 65535 in 16-bit arithmetic). -/
theorem beqz_negative_imm_bug :
    (decode (fetch beqzNeg2Prog)).ID_EX.opcode = 4 ∧
    (decode (fetch beqzNeg2Prog)).ID_EX.rs = 1 ∧
    (decode (fetch beqzNeg2Prog)).ID_EX.pc = 0 ∧
    (decode (fetch beqzNeg2Prog)).ID_EX.imm = 62 ∧
    beqzNeg2Prog.Register 1 = 0 ∧
    (execute (decode (fetch beqzNeg2Prog))).PC = 63 ∧
    (execute (decode (fetch beqzNeg2Prog))).PC ≠ 65535 := by
  decide

/-! ### C5: BR -/

/-- C5: executing a valid BR sets the program counter to the 16-bit value
with the live source register value as high byte and the live second
register value as low byte, invalidates both pipeline latches, and performs
no register write-back, flag update or data-memory write. -/
theorem br_execute (p : Processor) (hv : p.ID_EX.valid = true)
    (hop : p.ID_EX.opcode = 7)
    (hrs : p.Register p.ID_EX.rs < 256) (hrt : p.Register p.ID_EX.rt < 256) :
    (execute p).PC = 256 * p.Register p.ID_EX.rs + p.Register p.ID_EX.rt ∧
    (execute p).IF_ID.valid = false ∧
    (execute p).ID_EX.valid = false ∧
    (execute p).Register = p.Register ∧
    (execute p).SREG = p.SREG ∧
    (execute p).data_mem = p.data_mem := by
  have h4 : ¬p.ID_EX.opcode = 4 := by omega
  have key : (p.Register p.ID_EX.rs % 256) <<< 8 ||| (p.Register p.ID_EX.rt % 256) =
      256 * p.Register p.ID_EX.rs + p.Register p.ID_EX.rt := by
    rw [Nat.mod_eq_of_lt hrs, Nat.mod_eq_of_lt hrt]
    exact shiftLeft8_lor _ _ hrt
  have hlt : 256 * p.Register p.ID_EX.rs + p.Register p.ID_EX.rt < 65536 := by omega
  simp [execute, hv, hop, h4, key, Nat.mod_eq_of_lt hlt]

/-- C5 witness: `BR R1 R2` with R1 = 0x01 and R2 = 0x02 (state `brState`)
gives program counter 0x0102 = 258 and flushes both latches. -/
theorem br_execute_witness :
    ((execute brState).PC = 256 * brState.Register brState.ID_EX.rs +
        brState.Register brState.ID_EX.rt ∧
     (execute brState).IF_ID.valid = false ∧
     (execute brState).ID_EX.valid = false ∧
     (execute brState).Register = brState.Register ∧
     (execute brState).SREG = brState.SREG ∧
     (execute brState).data_mem = brState.data_mem) ∧
    (execute brState).PC = 0x0102 :=
  ⟨br_execute brState rfl rfl (by decide) (by decide), by decide⟩

/-! ### C6: fetch -/

/-- C6: fetch is a no-op when the program counter is at or beyond 1024;
when in range and the instruction word is the all-zero sentinel it clamps
the program counter to 1024 without touching the fetch-decode latch;
otherwise it loads the latch with the instruction, its fetch-time program
counter and valid = true, and increments the program counter. -/
theorem fetch_contract (p : Processor) :
    (1024 ≤ p.PC → fetch p = p) ∧
    (p.PC < 1024 → p.instr_mem p.PC = 0 → fetch p = { p with PC := 1024 }) ∧
    (p.PC < 1024 → p.instr_mem p.PC ≠ 0 →
      fetch p = { p with
        IF_ID := { instr := p.instr_mem p.PC, pc := p.PC, valid := true },
        PC := p.PC + 1 }) := by
  refine ⟨?_, ?_, ?_⟩
  · intro h
    have : ¬p.PC < 1024 := by omega
    simp [fetch, this]
  · intro h h0
    simp [fetch, h, h0]
  · intro h h0
    have : (p.PC + 1) % 65536 = p.PC + 1 := Nat.mod_eq_of_lt (by omega)
    simp [fetch, h, h0, this]

/-- C6 witness: the three fetch cases at concrete states — program counter
2000 (no-op), all-zero sentinel at address 0 (clamp to 1024), and a real
instruction word at address 0 (latch load and increment). -/
theorem fetch_contract_witness :
    fetch fetchIdleState = fetchIdleState ∧
    fetch zeroProc = { zeroProc with PC := 1024 } ∧
    fetch fetchHitState = { fetchHitState with
      IF_ID := { instr := fetchHitState.instr_mem fetchHitState.PC,
                 pc := fetchHitState.PC, valid := true },
      PC := fetchHitState.PC + 1 } :=
  ⟨(fetch_contract fetchIdleState).1 (by decide),
   (fetch_contract zeroProc).2.1 (by decide) (by decide),
   (fetch_contract fetchHitState).2.2 (by decide) (by decide)⟩

/-! ### C7: data store round-trip -/

/-- C7: a data-store write at an address below 2048 followed by a read at
the same address returns the written value; at or beyond 2048 the write is
a silent no-op and the read returns 0.  At instruction level, executing
`STR Rr1 a` (with Rr1 holding `v`) and then `LDR Rr2 a` leaves `v` in Rr2
for any nonzero second register index and any representable non-negative
immediate address. -/
theorem data_memory_contract :
    (∀ (p : Processor) (a v : Nat), a < 2048 →
        mem_read_data (mem_write_data p a v) a = v) ∧
    (∀ (p : Processor) (a v : Nat), 2048 ≤ a →
        mem_write_data p a v = p ∧ mem_read_data p a = 0) ∧
    (∀ (p : Processor) (r1 r2 : Nat) (a : Int) (v : Nat),
        r2 ≠ 0 → 0 ≤ a → a ≤ 127 → p.Register r1 = v → v < 256 →
        (execute
          { (execute
              { p with ID_EX := { instr := 0, pc := 0, opcode := 11, rs := r1, rt := 0,
                                  imm := a, valueRS := 0, valueRT := 0, valid := true } })
            with ID_EX := { instr := 0, pc := 0, opcode := 10, rs := r2, rt := 0,
                            imm := a, valueRS := 0, valueRT := 0, valid := true } }).Register r2
          = v) := by
  refine ⟨?_, ?_, ?_⟩
  · intro p a v ha
    have h : ¬a ≥ 2048 := by omega
    simp [mem_write_data, mem_read_data, h]
  · intro p a v ha
    simp [mem_write_data, mem_read_data, ha]
  · intro p r1 r2 a v hr2 ha0 ha127 hreg hv256
    have hI8 : toI8 a = a := by
      simp only [toI8, Int.emod_eq_of_lt ha0 (by omega : a < 256)]
      rw [if_pos (by omega : a < 128)]
    have hmod : a % 65536 = a := Int.emod_eq_of_lt ha0 (by omega)
    have hsmall : ¬(2048 ≤ a.toNat) := by omega
    simp [execute, mem_write_data, mem_read_data, hI8, hmod, hsmall, hr2, hreg,
          Nat.mod_eq_of_lt hv256]

/-- C7 witness: writing 7 at address 10 and reading it back; a write and a
read at out-of-range address 4000; and the concrete `STR R1 10` / `LDR R2 10`
sequence starting from `strState` (R1 = 7) leaving 7 in R2. -/
theorem data_memory_contract_witness :
    mem_read_data (mem_write_data zeroProc 10 7) 10 = 7 ∧
    (mem_write_data zeroProc 4000 9 = zeroProc ∧ mem_read_data zeroProc 4000 = 0) ∧
    (execute
      { (execute
          { strState with
            ID_EX := { instr := 0, pc := 0, opcode := 11, rs := 1, rt := 0,
                       imm := 10, valueRS := 0, valueRT := 0, valid := true } })
        with ID_EX := { instr := 0, pc := 0, opcode := 10, rs := 2, rt := 0,
                        imm := 10, valueRS := 0, valueRT := 0, valid := true } }).Register 2
      = 7 :=
  ⟨data_memory_contract.1 zeroProc 10 7 (by decide),
   data_memory_contract.2.1 zeroProc 4000 9 (by decide),
   data_memory_contract.2.2 strState 1 2 10 7 (by decide) (by decide) (by decide)
     (by decide) (by decide)⟩

/-! ### C8: ADD/SUB arithmetic and carry -/

theorem update_flags_SREG_indep (p q : Processor) (r v1 v2 op : Nat) :
    (update_flags p r v1 v2 op).SREG = (update_flags q r v1 v2 op).SREG := rfl

theorem update_flags_carry_add (p : Processor) (r v1 v2 : Nat) :
    ((update_flags p r v1 v2 0).SREG &&& FLAG_C ≠ 0) ↔
      ((v1 + v2) % 65536) &&& 256 ≠ 0 := by
  simp only [update_flags]
  norm_num
  split_ifs <;>
    first
      | (refine iff_of_true (by decide) ?_; assumption)
      | (refine iff_of_false (by decide) (not_not_intro ?_); assumption)

theorem update_flags_carry_sub (p : Processor) (r v1 v2 : Nat) :
    ((update_flags p r v1 v2 1).SREG &&& FLAG_C ≠ 0) ↔
      (((toI8 (v1 : Int) - toI8 (v2 : Int)) % 65536).toNat) &&& 256 ≠ 0 := by
  simp only [update_flags]
  norm_num
  split_ifs <;>
    first
      | (refine iff_of_true (by decide) ?_; assumption)
      | (refine iff_of_false (by decide) (not_not_intro ?_); assumption)

/-- C8: ADD and SUB are 8-bit wraparound arithmetic whose Carry flag is
bit 8 of the widened intermediate (the 16-bit sum for ADD; the 16-bit
image of the sign-extended difference for SUB), together with the
concrete cases 5+3 = 8 (no flags), 200+100 = 44 with Carry set, and
3−5 = 254 (0xFE) with Negative set and Zero clear. -/
theorem add_sub_arith :
    (∀ a b : Nat, a < 256 → b < 256 →
      (execute (arithState 0 a b)).Register 1 = (a + b) % 256) ∧
    (∀ a b : Nat, a < 256 → b < 256 →
      (((execute (arithState 0 a b)).SREG &&& FLAG_C ≠ 0) ↔ (a + b).testBit 8)) ∧
    (∀ a b : Nat, a < 256 → b < 256 →
      (execute (arithState 1 a b)).Register 1 = (((a : Int) - b) % 256).toNat) ∧
    (∀ a b : Nat, a < 256 → b < 256 →
      (((execute (arithState 1 a b)).SREG &&& FLAG_C ≠ 0) ↔
        (((toI8 (a : Int) - toI8 (b : Int)) % 65536).toNat).testBit 8)) ∧
    ((execute (arithState 0 5 3)).Register 1 = 8 ∧ (execute (arithState 0 5 3)).SREG = 0) ∧
    ((execute (arithState 0 200 100)).Register 1 = 44 ∧
     (execute (arithState 0 200 100)).SREG &&& FLAG_C ≠ 0) ∧
    ((execute (arithState 1 3 5)).Register 1 = 254 ∧
     (execute (arithState 1 3 5)).SREG &&& FLAG_N ≠ 0 ∧
     (execute (arithState 1 3 5)).SREG &&& FLAG_Z = 0) := by
  refine ⟨?_, ?_, ?_, ?_, by decide, by decide, by decide⟩
  · intro a b ha hb
    simp [execute, arithState, arithLatch, Nat.mod_eq_of_lt ha, Nat.mod_eq_of_lt hb]
  · intro a b ha hb
    have key : ∀ (q : Processor) (r : Nat),
        ((update_flags q r a b 0).SREG &&& FLAG_C ≠ 0) ↔ (a + b).testBit 8 := by
      intro q r
      rw [update_flags_carry_add, Nat.mod_eq_of_lt (show a + b < 65536 by omega),
          land_256_ne_zero]
    simp only [execute, arithState, arithLatch]
    simp [Nat.mod_eq_of_lt ha, Nat.mod_eq_of_lt hb]
    exact key _ _
  · intro a b ha hb
    simp [execute, arithState, arithLatch, Nat.mod_eq_of_lt ha, Nat.mod_eq_of_lt hb]
  · intro a b ha hb
    have key : ∀ (q : Processor) (r : Nat),
        ((update_flags q r a b 1).SREG &&& FLAG_C ≠ 0) ↔
          (((toI8 (a : Int) - toI8 (b : Int)) % 65536).toNat).testBit 8 := by
      intro q r
      rw [update_flags_carry_sub, land_256_ne_zero]
    simp only [execute, arithState, arithLatch]
    simp [Nat.mod_eq_of_lt ha, Nat.mod_eq_of_lt hb]
    exact key _ _

/-- C8 witness: the general ADD/SUB conjuncts instantiated at the concrete
operand pairs named by the claim. -/
theorem add_sub_arith_witness :
    (execute (arithState 0 5 3)).Register 1 = (5 + 3) % 256 ∧
    (((execute (arithState 0 200 100)).SREG &&& FLAG_C ≠ 0) ↔ (200 + 100).testBit 8) ∧
    (execute (arithState 1 3 5)).Register 1 = (((3 : Int) - 5) % 256).toNat ∧
    (((execute (arithState 1 3 5)).SREG &&& FLAG_C ≠ 0) ↔
      (((toI8 (3 : Int) - toI8 (5 : Int)) % 65536).toNat).testBit 8) :=
  ⟨add_sub_arith.1 5 3 (by decide) (by decide),
   add_sub_arith.2.1 200 100 (by decide) (by decide),
   add_sub_arith.2.2.1 3 5 (by decide) (by decide),
   add_sub_arith.2.2.2.1 3 5 (by decide) (by decide)⟩

/-! ### C9: register 0 is never written -/

theorem decode_Register_unchanged (p : Processor) : (decode p).Register = p.Register := by
  unfold decode
  split <;> rfl

theorem fetch_Register_unchanged (p : Processor) : (fetch p).Register = p.Register := by
  simp only [fetch]
  split_ifs <;> rfl

theorem execute_Register0 (p : Processor) : (execute p).Register 0 = p.Register 0 := by
  by_cases hv : p.ID_EX.valid = false
  · simp [execute, hv]
  · by_cases h4 : p.ID_EX.opcode = 4
    · by_cases hr : p.Register p.ID_EX.rs = 0
      · simp [execute, hv, h4, hr]
      · simp [execute, hv, h4, hr]
    · by_cases h7 : p.ID_EX.opcode = 7
      · simp [execute, hv, h4, h7]
      · by_cases h11 : p.ID_EX.opcode = 11
        · simp [execute, hv, h4, h7, h11]
        · by_cases harith : p.ID_EX.opcode = 0 ∨ p.ID_EX.opcode = 1 ∨
              p.ID_EX.opcode = 2 ∨ p.ID_EX.opcode = 3 ∨ p.ID_EX.opcode = 5 ∨
              p.ID_EX.opcode = 6 ∨ p.ID_EX.opcode = 8 ∨ p.ID_EX.opcode = 9 ∨
              p.ID_EX.opcode = 10
          · by_cases hrs : p.ID_EX.rs ≠ 0
            · have h0 : ¬(0 = p.ID_EX.rs) := fun h => hrs h.symm
              simp [execute, hv, h4, h7, h11, harith, hrs, h0]
            · simp [execute, hv, h4, h7, h11, harith, hrs]
          · simp [execute, hv, h4, h7, h11, harith]

/-- C9: one whole simulation cycle never mutates the storage cell of
register index 0: the write-back guard suppresses writes to index 0, and no
other part of the cycle touches the register file. -/
theorem register_zero_cell_preserved (p : Processor) :
    (process_cycle p).Register 0 = p.Register 0 := by
  unfold process_cycle
  dsimp only
  split
  · rw [fetch_Register_unchanged, decode_Register_unchanged, execute_Register0]
  · rw [decode_Register_unchanged, execute_Register0]

/-- C9 witness: a concrete cycle (the BR state) leaves register 0's cell
unchanged. -/
theorem register_zero_cell_preserved_witness :
    (process_cycle brState).Register 0 = brState.Register 0 :=
  register_zero_cell_preserved brState

/-! ### C10: BR reads the live register file -/

/-- C10: the BR target is computed from the live register file values of the
source and second registers at execute time, not from the operand values
snapshotted into the decode-execute latch: replacing the snapshots by any
values whatsoever does not change the resulting program counter. -/
theorem br_reads_live_registers (p : Processor) (hv : p.ID_EX.valid = true)
    (hop : p.ID_EX.opcode = 7) :
    (execute p).PC =
      ((p.Register p.ID_EX.rs % 256) <<< 8 ||| (p.Register p.ID_EX.rt % 256)) % 65536 ∧
    ∀ x y : Nat,
      (execute { p with ID_EX := { p.ID_EX with valueRS := x, valueRT := y } }).PC =
        (execute p).PC := by
  have h4 : ¬p.ID_EX.opcode = 4 := by omega
  constructor
  · simp [execute, hv, hop, h4]
  · intro x y
    simp [execute, hv, hop, h4]

/-- C10 witness: in `brStaleState` the latch snapshots (9, 9) differ from
the live register values R1 = 1, R2 = 2, and the program counter still
becomes 0x0102 = 258, determined by the live values. -/
theorem br_reads_live_registers_witness :
    ((execute brStaleState).PC =
      ((brStaleState.Register brStaleState.ID_EX.rs % 256) <<< 8 |||
        (brStaleState.Register brStaleState.ID_EX.rt % 256)) % 65536 ∧
     ∀ x y : Nat,
       (execute { brStaleState with
          ID_EX := { brStaleState.ID_EX with valueRS := x, valueRT := y } }).PC =
         (execute brStaleState).PC) ∧
    (execute brStaleState).PC = 258 ∧
    brStaleState.ID_EX.valueRS ≠ brStaleState.Register brStaleState.ID_EX.rs :=
  ⟨br_reads_live_registers brStaleState rfl rfl, by decide, by decide⟩
